import Mathlib

/-!
Shallow embedding of the consistency-critical subsystems of the UMaT
Student Portal: the Payment Reconciler (payment schema and controller,
src/backend/models/News.js payment section and
src/backend/controllers/newsController.js payment section) and the
Registration Ledger (course / course-registration schemas and the course
controller, src/unnamed/part_002 and src/unnamed/part_000).

Mongoose documents are modelled as Lean structures, `new Date()` as an
explicit `now : Nat` argument, and the database as explicit state passed
through each operation.  The pre/post save hooks are embedded as
functions composed into every operation that calls `.save()`, exactly as
mongoose runs them.
-/

namespace StudentPortal

/-! ## Payment Reconciler -/

/-- The payment schema's status enum:
`['pending', 'successful', 'failed', 'abandoned']`. -/
inductive PayStatus where
  | pending
  | successful
  | failed
  | abandoned
deriving DecidableEq

/-- The fields of a Paystack transaction object that the payment model
methods read (`gateway_response`, `channel`, `ip_address`, `user_agent`,
`failure_reason`) together with the correlation `reference` the
controller uses to look the local Payment up. -/
structure PaystackData where
  reference : String
  gateway_response : String
  channel : String
  ip_address : String
  user_agent : String
  failure_reason : String
deriving DecidableEq

/-- A Payment document.  Identity fields that no reconciler operation
ever writes (student, paymentType, department, description, metadata)
are omitted; every field any of `markSuccessful` / `markFailed` /
`markAbandoned` touches is present. -/
structure Payment where
  amount : Nat
  currency : String
  paystackReference : Option String
  paystackAccessCode : Option String
  status : PayStatus
  paidAt : Option Nat
  failureReason : Option String
  gatewayResponse : Option String
  channel : Option String
  ipAddress : Option String
  userAgent : Option String
deriving DecidableEq

/-- `paymentSchema.methods.markSuccessful(paystackData)`: unconditionally
sets status to successful, `paidAt` to `new Date()` (the `now`
argument), and copies the gateway metadata. -/
def Payment.markSuccessful (p : Payment) (d : PaystackData) (now : Nat) : Payment :=
  { p with
    status := .successful
    paidAt := some now
    gatewayResponse := some d.gateway_response
    channel := some d.channel
    ipAddress := some d.ip_address
    userAgent := some d.user_agent }

/-- `paymentSchema.methods.markFailed(paystackData)`: unconditionally
sets status to failed and records the failure reason and gateway
response. -/
def Payment.markFailed (p : Payment) (d : PaystackData) : Payment :=
  { p with
    status := .failed
    failureReason := some d.failure_reason
    gatewayResponse := some d.gateway_response }

/-- `paymentSchema.methods.markAbandoned()`: unconditionally sets status
to abandoned. -/
def Payment.markAbandoned (p : Payment) : Payment :=
  { p with status := .abandoned }

/-- The outcome dispatch in `verifyPayment`
(src/backend/controllers/newsController.js lines 897-904):
`success` marks successful, `failed` marks failed, every other gateway
transaction status falls into the `else` branch and marks abandoned. -/
def verifyApplyOutcome (tstatus : String) (d : PaystackData) (now : Nat)
    (p : Payment) : Payment :=
  if tstatus = "success" then p.markSuccessful d now
  else if tstatus = "failed" then p.markFailed d
  else p.markAbandoned

/-- The three HTTP responses `handleWebhook` can produce. -/
inductive WebhookResult where
  | ok
  | invalidSignature
  | paymentNotFound
deriving DecidableEq

/-- The `res.status(...)` code of each `handleWebhook` response:
200 on processed, 400 on Invalid signature, 404 on Payment not found. -/
def WebhookResult.httpStatus : WebhookResult → Nat
  | .ok => 200
  | .invalidSignature => 400
  | .paymentNotFound => 404

/-- The parsed webhook request body: `const { event, data } = req.body`. -/
structure WebhookBody where
  event : String
  data : PaystackData
deriving DecidableEq

/-- `Payment.findOne({ paystackReference: reference })` over the payment
collection, modelled as a list. -/
def findByRef (ref : String) (ps : List Payment) : Option Payment :=
  ps.find? fun p => p.paystackReference = some ref

/-- Saving a mutated document found by reference: rewrite the first
payment whose `paystackReference` matches. -/
def applyToRef (f : Payment → Payment) (ref : String) :
    List Payment → List Payment
  | [] => []
  | p :: ps =>
    if p.paystackReference = some ref then f p :: ps
    else p :: applyToRef f ref ps

/-- `handleWebhook` (src/backend/controllers/newsController.js lines
942-996).  The HMAC over the serialized body and the body serialization
itself are external library calls, passed in as function arguments; the
controller compares the recomputed hash to the `x-paystack-signature`
header, returns 400 on mismatch before touching any Payment, then looks
the payment up by `data.reference` (404 when absent) and dispatches on
the event kind; unknown events are only logged and still acknowledged
with 200. -/
def handleWebhook (hmacHex : String → String → String)
    (stringify : WebhookBody → String) (secret : String)
    (body : WebhookBody) (signature : String) (now : Nat)
    (payments : List Payment) : WebhookResult × List Payment :=
  let hash := hmacHex secret (stringify body)
  if signature ≠ hash then
    (.invalidSignature, payments)
  else
    match findByRef body.data.reference payments with
    | none => (.paymentNotFound, payments)
    | some _ =>
      if body.event = "charge.success" then
        (.ok, applyToRef (fun p => p.markSuccessful body.data now)
          body.data.reference payments)
      else if body.event = "charge.failed" then
        (.ok, applyToRef (fun p => p.markFailed body.data)
          body.data.reference payments)
      else if body.event = "transfer.failed" then
        (.ok, applyToRef (fun p => p.markFailed body.data)
          body.data.reference payments)
      else
        (.ok, payments)

/-! ## Registration Ledger -/

/-- The course-registration schema's status enum:
`['pending', 'approved', 'rejected', 'dropped']`. -/
inductive RegStatus where
  | pending
  | approved
  | rejected
  | dropped
deriving DecidableEq

/-- A Course document, restricted to the fields the registration flow
reads or writes (`isActive`, `maxStudents`, `currentEnrollment`).
`currentEnrollment` is an `Int` because the hooks mutate it through
`findByIdAndUpdate` with `$inc`, which bypasses the schema's `min: 0`
validator. -/
structure Course where
  isActive : Bool
  maxStudents : Option Nat
  currentEnrollment : Int
deriving DecidableEq

/-- The `isFull` virtual:
`this.maxStudents && this.currentEnrollment >= this.maxStudents`.
A JavaScript `maxStudents` of `undefined` or `0` is falsy, making the
whole conjunction false. -/
def Course.isFull (c : Course) : Bool :=
  match c.maxStudents with
  | none => false
  | some m => if m = 0 then false else decide ((m : Int) ≤ c.currentEnrollment)

/-- A CourseRegistration document.  `student`/`course` ObjectIds are
modelled as `Nat`; `semester` and `academicYear` as the strings the
schema stores. -/
structure Registration where
  student : Nat
  course : Nat
  semester : String
  academicYear : String
  status : RegStatus
  registeredAt : Nat
  approvedAt : Option Nat
  approvedBy : Option Nat
  notes : Option String
deriving DecidableEq

/-- The database state the registration flow touches: the course and
course-registration collections (association lists keyed by ObjectId)
plus a counter for fresh registration ids. -/
structure LedgerState where
  courses : List (Nat × Course)
  regs : List (Nat × Registration)
  nextRegId : Nat
deriving DecidableEq

/-- `Course.findById`. -/
def findCourse (st : LedgerState) (cid : Nat) : Option Course :=
  (st.courses.find? fun pr => pr.1 = cid).map Prod.snd

/-- `CourseRegistration.findById`. -/
def findReg (st : LedgerState) (rid : Nat) : Option Registration :=
  (st.regs.find? fun pr => pr.1 = rid).map Prod.snd

/-- Saving a mutated registration document back to its collection. -/
def writeReg (st : LedgerState) (rid : Nat) (r : Registration) : LedgerState :=
  { st with regs := st.regs.map fun pr => if pr.1 = rid then (rid, r) else pr }

/-- `Course.findByIdAndUpdate(cid, { $inc: { currentEnrollment: delta } })`:
a no-op when the course id does not exist, otherwise a plain
unvalidated increment. -/
def incEnrollment (cid : Nat) (delta : Int) (st : LedgerState) : LedgerState :=
  { st with
    courses := st.courses.map fun pr =>
      if pr.1 = cid then
        (pr.1, { pr.2 with currentEnrollment := pr.2.currentEnrollment + delta })
      else pr }

/-- The `post('save')` hook (src/unnamed/part_002 lines 592-600): after
every save of a registration whose status is `approved` — with no check
of the prior status — increment the course's enrollment by one. -/
def postSaveHook (rid : Nat) (st : LedgerState) : LedgerState :=
  match findReg st rid with
  | none => st
  | some r => if r.status = .approved then incEnrollment r.course 1 st else st

/-- The `post('findOneAndUpdate')` hook (src/unnamed/part_002 lines
603-622), which increments on a transition into `approved` and
decrements on a transition out of it.  No route ever calls
`findOneAndUpdate` on a registration (the controllers go through
`.save()` via the `approve`/`reject`/`drop` instance methods), so this
decrement path is unreachable in the deployed operation set; it is
embedded here to document the only decrement logic the source
contains. -/
def postFindOneAndUpdateHook (docStatus : RegStatus) (docCourse : Nat)
    (updateStatus : RegStatus) (st : LedgerState) : LedgerState :=
  let st1 :=
    if updateStatus = .approved ∧ docStatus ≠ .approved then
      incEnrollment docCourse 1 st
    else st
  if docStatus = .approved ∧ updateStatus ≠ .approved then
    incEnrollment docCourse (-1) st1
  else st1

/-- The duplicate check in the `pre('save')` hook: does any registration
match the (student, course, semester, academicYear) tuple, in any
status? -/
def tupleExists (st : LedgerState) (studentId cid : Nat)
    (sem yr : String) : Bool :=
  st.regs.any fun pr =>
    pr.2.student = studentId ∧ pr.2.course = cid ∧
    pr.2.semester = sem ∧ pr.2.academicYear = yr

/-- Every response `registerForCourse` can produce, one constructor per
`res.status(...)` exit of the controller (src/unnamed/part_000 lines
377-445).  The pre-save hook's duplicate error carries the message
`Student is already registered for this course in this semester`, which
the controller's catch block matches on. -/
inductive RegisterResult where
  | created (regId : Nat)
  | courseNotFound
  | courseInactive
  | courseFull
  | alreadyRegistered
deriving DecidableEq

/-- The HTTP status of each `registerForCourse` response: 201 created,
404 course not found, 400 inactive, 400 full, and — because the catch
block matches the duplicate message and replies with
`res.status(400)` — 400 for a duplicate registration. -/
def RegisterResult.httpStatus : RegisterResult → Nat
  | .created _ => 201
  | .courseNotFound => 404
  | .courseInactive => 400
  | .courseFull => 400
  | .alreadyRegistered => 400

/-- `registerForCourse` (src/unnamed/part_000 lines 377-445) composed
with the registration `pre('save')` and `post('save')` hooks, in the
order the code runs them: course existence, `isActive`, `isFull`
(controller), then the duplicate-tuple check and a re-check of `isFull`
(pre-save hook, same state so the second full check cannot fire here),
then the insert with status `pending` and the post-save hook (which
does not increment because the new document is pending). -/
def registerForCourse (st : LedgerState) (studentId cid : Nat)
    (sem yr : String) (now : Nat) : RegisterResult × LedgerState :=
  match findCourse st cid with
  | none => (.courseNotFound, st)
  | some c =>
    if !c.isActive then (.courseInactive, st)
    else if c.isFull then (.courseFull, st)
    else if tupleExists st studentId cid sem yr then (.alreadyRegistered, st)
    else
      let rid := st.nextRegId
      let r : Registration :=
        { student := studentId, course := cid, semester := sem
          academicYear := yr, status := .pending, registeredAt := now
          approvedAt := none, approvedBy := none, notes := none }
      let st1 : LedgerState :=
        { st with regs := st.regs ++ [(rid, r)], nextRegId := rid + 1 }
      (.created rid, postSaveHook rid st1)

/-- The two responses the approve/reject handlers can produce. -/
inductive UpdateResult where
  | ok
  | notFound
deriving DecidableEq

/-- HTTP status of the approve/reject responses: 200 ok, 404 when the
registration id is unknown. -/
def UpdateResult.httpStatus : UpdateResult → Nat
  | .ok => 200
  | .notFound => 404

/-- `approveRegistration` (src/unnamed/part_000 lines 514-539) composed
with `courseRegistrationSchema.methods.approve` (part_002 lines
728-733) and the save hooks: find the registration (404 if absent),
unconditionally set status to `approved` with `approvedAt`/`approvedBy`,
save; the post-save hook then increments the course enrollment.  There
is no capacity check and no prior-status check anywhere on this
path. -/
def approveRegistration (st : LedgerState) (rid adminId : Nat)
    (now : Nat) : UpdateResult × LedgerState :=
  match findReg st rid with
  | none => (.notFound, st)
  | some r =>
    let r' : Registration :=
      { r with
        status := .approved
        approvedAt := some now
        approvedBy := some adminId }
    (.ok, postSaveHook rid (writeReg st rid r'))

/-- `rejectRegistration` (src/unnamed/part_000 lines 568-594) composed
with `courseRegistrationSchema.methods.reject` (part_002 lines 736-742)
and the save hooks: set status to `rejected`, record
`approvedAt`/`approvedBy`, overwrite `notes` when the supplied string is
truthy (non-empty), save.  The post-save hook only increments on status
`approved`, so a save with status `rejected` never touches the
enrollment counter. -/
def rejectRegistration (st : LedgerState) (rid adminId : Nat)
    (notes : String) (now : Nat) : UpdateResult × LedgerState :=
  match findReg st rid with
  | none => (.notFound, st)
  | some r =>
    let r' : Registration :=
      { r with
        status := .rejected
        approvedAt := some now
        approvedBy := some adminId
        notes := if notes = "" then r.notes else some notes }
    (.ok, postSaveHook rid (writeReg st rid r'))

/-- `courseRegistrationSchema.methods.drop` (part_002 lines 745-748)
composed with the save hooks: set status to `dropped` and save; again
the post-save hook does nothing for a non-approved status, so the
enrollment counter is untouched. -/
def dropRegistration (st : LedgerState) (rid : Nat) :
    UpdateResult × LedgerState :=
  match findReg st rid with
  | none => (.notFound, st)
  | some r =>
    let r' : Registration := { r with status := .dropped }
    (.ok, postSaveHook rid (writeReg st rid r'))

/-- One Registration Ledger operation, as named by the spec: the
student-facing register, the admin approve/reject, and the student
drop. -/
inductive LedgerOp where
  | register (studentId cid : Nat) (sem yr : String) (now : Nat)
  | approve (rid adminId now : Nat)
  | reject (rid adminId : Nat) (notes : String) (now : Nat)
  | drop (rid : Nat)

/-- Apply one operation, discarding the HTTP response. -/
def LedgerState.step (st : LedgerState) : LedgerOp → LedgerState
  | .register studentId cid sem yr now =>
    (registerForCourse st studentId cid sem yr now).2
  | .approve rid adminId now => (approveRegistration st rid adminId now).2
  | .reject rid adminId notes now =>
    (rejectRegistration st rid adminId notes now).2
  | .drop rid => (dropRegistration st rid).2

/-- Run a sequence of ledger operations. -/
def LedgerState.run (st : LedgerState) (ops : List LedgerOp) : LedgerState :=
  ops.foldl LedgerState.step st

/-- The number of CourseRegistrations referencing a course whose status
is `approved` — the right-hand side of the spec's enrollment
invariant. -/
def approvedCount (st : LedgerState) (cid : Nat) : Nat :=
  (st.regs.filter fun pr => pr.2.course = cid ∧ pr.2.status = .approved).length

/-- The stored counter of a course, `none` when the id is unknown. -/
def enrollmentOf (st : LedgerState) (cid : Nat) : Option Int :=
  (findCourse st cid).map Course.currentEnrollment

/-! ## Concrete fixtures -/

/-- One active course (id 0) with no capacity limit and an empty
registration collection. -/
def st0 : LedgerState :=
  { courses := [(0, { isActive := true, maxStudents := none, currentEnrollment := 0 })]
    regs := []
    nextRegId := 0 }

/-- One active course (id 0) with `maxStudents = 1`. -/
def stCap1 : LedgerState :=
  { courses := [(0, { isActive := true, maxStudents := some 1, currentEnrollment := 0 })]
    regs := []
    nextRegId := 0 }

/-- The ledger after student 1 has registered once for course 0. -/
def stDup : LedgerState :=
  (registerForCourse st0 1 0 "First" "2023/2024" 1).2

/-- A concrete Paystack transaction object. -/
def paystackD : PaystackData :=
  { reference := "UMaT_1"
    gateway_response := "Approved"
    channel := "card"
    ip_address := "203.0.113.9"
    user_agent := "Mozilla"
    failure_reason := "declined" }

/-- A pending payment of 500 minor units correlated with gateway
reference `UMaT_1`. -/
def payment0 : Payment :=
  { amount := 500
    currency := "NGN"
    paystackReference := some "UMaT_1"
    paystackAccessCode := some "AC_x"
    status := .pending
    paidAt := none
    failureReason := none
    gatewayResponse := none
    channel := none
    ipAddress := none
    userAgent := none }

/-- `payment0` after a successful verify outcome at time 1. -/
def paymentSuccessful : Payment :=
  payment0.markSuccessful paystackD 1

/-- `payment0` after a verify call in which the gateway still reported
the transaction as `pending`: the controller's else branch marks it
abandoned. -/
def paymentAbandoned : Payment :=
  verifyApplyOutcome "pending" paystackD 5 payment0

/-- A stand-in for the HMAC-SHA512 library call, used to instantiate
the parametric webhook embedding on concrete inputs. -/
def hmacConst : String → String → String := fun _ _ => "sig"

/-- A stand-in for `JSON.stringify` on the webhook body. -/
def stringifyConst : WebhookBody → String := fun _ => "body"

/-- The ledger after register, approve, reject on one registration for
the uncapped course. -/
def c1Final : LedgerState :=
  st0.run
    [.register 7 0 "First" "2023/2024" 10, .approve 0 9 11,
     .reject 0 9 "late submission" 12]

/-- The capacity-1 ledger after two registrations and two approvals. -/
def c2Final : LedgerState :=
  stCap1.run
    [.register 1 0 "First" "2023/2024" 1, .register 2 0 "First" "2023/2024" 2,
     .approve 0 9 3, .approve 1 9 4]

/-- The capacity-1 ledger with two registrations, the first approved:
the course is at capacity with one pending registration left. -/
def atCapacity : LedgerState :=
  stCap1.run
    [.register 1 0 "First" "2023/2024" 1, .register 2 0 "First" "2023/2024" 2,
     .approve 0 9 3]

/-- The uncapped ledger after approving the same registration twice. -/
def c6Final : LedgerState :=
  st0.run [.register 1 0 "First" "2023/2024" 1, .approve 0 9 2, .approve 0 9 3]

/-- The uncapped ledger with one approved registration. -/
def oneApproved : LedgerState :=
  st0.run [.register 1 0 "First" "2023/2024" 1, .approve 0 9 2]

/-! ## Claims -/

/-- C1: the spec's invariant — `currentEnrollment` always equals the
number of approved CourseRegistrations for the course — is violated by
the code: after register, approve, reject on a single registration the
counter is 1 while no approved registration remains, because `reject`
saves through `.save()` and the post-save hook never decrements (the
only decrement lives in the unreachable `findOneAndUpdate` hook). -/
theorem C1_enrollment_invariant_violated :
    enrollmentOf c1Final 0 = some 1 ∧ approvedCount c1Final 0 = 0 := by
  decide

/-- C2: with `maxStudents = 1`, two registrations followed by two
approvals drive `currentEnrollment` to 2 — the counter exceeds
`maxStudents`, refuting the claim's upper bound (approval performs no
capacity check; only new registrations are gated on `isFull`). -/
theorem C2_capacity_exceeded :
    (findCourse c2Final 0).map Course.maxStudents = some (some 1) ∧
    enrollmentOf c2Final 0 = some 2 := by
  decide

/-- C3 counterexample: a Payment already `successful` is moved to
`failed` by a subsequent signature-valid `charge.failed` webhook — the
status does change, refuting sticky success. -/
theorem C3_sticky_success_counterexample :
    let res := handleWebhook hmacConst stringifyConst "secret"
      { event := "charge.failed", data := paystackD } "sig" 2 [paymentSuccessful]
    paymentSuccessful.status = .successful ∧
    res.1 = .ok ∧
    (findByRef "UMaT_1" res.2).map Payment.status = some .failed := by
  decide

/-- C3 amended: no payment state is terminal — `markFailed` and
`markAbandoned` set their status unconditionally, whatever the current
status (in particular on a successful payment), and no anomaly is
recorded anywhere. -/
theorem C3_marks_unconditional (p : Payment) (d : PaystackData) :
    (p.markFailed d).status = .failed ∧ p.markAbandoned.status = .abandoned :=
  ⟨rfl, rfl⟩

/-- C4 counterexample: applying the same successful outcome twice does
not leave the Payment row unchanged — the second `markSuccessful`
overwrites `paidAt` with the time of the second call. -/
theorem C4_idempotence_counterexample :
    let s1 := payment0.markSuccessful paystackD 1
    let s2 := s1.markSuccessful paystackD 2
    s1.status = .successful ∧ s2.status = .successful ∧
    s2.paidAt ≠ s1.paidAt ∧ s2 ≠ s1 := by
  decide

/-- C4 amended: re-applying the same successful outcome is not an error
and leaves the status `successful`, but it re-sets `paidAt` to the time
of the later call, so the row is unchanged only when the timestamps
(and gateway metadata) coincide — in which case the operation is
genuinely idempotent. -/
theorem C4_reapply_same_outcome (p : Payment) (d : PaystackData) (t t' : Nat) :
    ((p.markSuccessful d t).markSuccessful d t').status = .successful ∧
    ((p.markSuccessful d t).markSuccessful d t').paidAt = some t' ∧
    (p.markSuccessful d t).markSuccessful d t = p.markSuccessful d t :=
  ⟨rfl, rfl, rfl⟩

/-- C5: approving a registration for a course already at capacity does
not fail with CourseFull — the handler returns 200 ok, the registration
becomes approved and the counter is pushed past `maxStudents`; no
capacity re-check exists on the approval path. -/
theorem C5_approve_ignores_capacity :
    enrollmentOf atCapacity 0 = some 1 ∧
    (findCourse atCapacity 0).map Course.isFull = some true ∧
    (approveRegistration atCapacity 1 9 4).1 = .ok ∧
    (findReg (approveRegistration atCapacity 1 9 4).2 1).map Registration.status =
      some .approved ∧
    enrollmentOf (approveRegistration atCapacity 1 9 4).2 0 = some 2 := by
  decide

/-- C6: approving the same registration twice increments the counter
twice — the post-save hook fires on every save with status `approved`,
with no prior-status guard, so re-approval double-increments. -/
theorem C6_reapprove_double_increments :
    enrollmentOf c6Final 0 = some 2 ∧ approvedCount c6Final 0 = 1 := by
  decide

/-- C7: rejecting an approved registration records the admin notes but
does not decrement the counter — `reject` saves through `.save()`,
whose post-save hook never decrements, so the enrollment stays at 1
where the claim requires 0. -/
theorem C7_reject_after_approve_no_decrement :
    enrollmentOf oneApproved 0 = some 1 ∧
    (rejectRegistration oneApproved 0 9 "Missing prerequisites" 3).1 = .ok ∧
    (findReg (rejectRegistration oneApproved 0 9 "Missing prerequisites" 3).2 0).map
      Registration.status = some .rejected ∧
    (findReg (rejectRegistration oneApproved 0 9 "Missing prerequisites" 3).2 0).map
      Registration.notes = some (some "Missing prerequisites") ∧
    enrollmentOf (rejectRegistration oneApproved 0 9 "Missing prerequisites" 3).2 0 =
      some 1 := by
  decide

/-- C8 counterexample: the second registration for the same tuple is
rejected as a duplicate, but with HTTP status 400, not the claimed
409. -/
theorem C8_duplicate_http_status_counterexample :
    let res := registerForCourse stDup 1 0 "First" "2023/2024" 2
    res.1 = .alreadyRegistered ∧
    res.1.httpStatus = 400 ∧
    res.1.httpStatus ≠ 409 ∧
    res.2.regs.length = 1 := by
  decide

/-- C8 amended: whenever the tuple already exists — in any status — and
the course still exists, is active and is not full (those controller
checks run first and return their own errors), the second register call
fails with the duplicate error at HTTP 400 and leaves the state, hence
the registration collection, unchanged. -/
theorem C8_duplicate_rejected_400 (st : LedgerState) (studentId cid : Nat)
    (sem yr : String) (now : Nat) (c : Course)
    (hc : findCourse st cid = some c) (hact : c.isActive = true)
    (hfull : c.isFull = false)
    (hdup : tupleExists st studentId cid sem yr = true) :
    registerForCourse st studentId cid sem yr now = (.alreadyRegistered, st) ∧
    RegisterResult.httpStatus .alreadyRegistered = 400 := by
  refine ⟨?_, rfl⟩
  unfold registerForCourse
  rw [hc]
  simp [hact, hfull, hdup]

/-- C8 witness: the amended statement at the concrete duplicate
fixture. -/
theorem C8_duplicate_rejected_400_witness :
    registerForCourse stDup 1 0 "First" "2023/2024" 2 = (.alreadyRegistered, stDup) ∧
    RegisterResult.httpStatus .alreadyRegistered = 400 :=
  C8_duplicate_rejected_400 stDup 1 0 "First" "2023/2024" 2
    { isActive := true, maxStudents := none, currentEnrollment := 0 }
    (by decide) (by decide) (by decide) (by decide)

/-- C9: when the supplied signature differs from the HMAC recomputed
over the serialized body with the shared secret, `handleWebhook`
returns the 400 invalid-signature response and the payment collection
is returned untouched — the check runs before any lookup or write, for
every choice of HMAC function, serializer, secret, body and state. -/
theorem C9_invalid_signature_no_mutation
    (hmacHex : String → String → String) (stringify : WebhookBody → String)
    (secret : String) (body : WebhookBody) (signature : String) (now : Nat)
    (payments : List Payment)
    (h : signature ≠ hmacHex secret (stringify body)) :
    handleWebhook hmacHex stringify secret body signature now payments =
      (.invalidSignature, payments) ∧
    WebhookResult.httpStatus .invalidSignature = 400 := by
  refine ⟨?_, rfl⟩
  unfold handleWebhook
  simp [h]

/-- C9 witness: the theorem at a concrete forged signature. -/
theorem C9_invalid_signature_no_mutation_witness :
    handleWebhook hmacConst stringifyConst "secret"
      { event := "charge.success", data := paystackD } "forged" 3 [payment0] =
      (.invalidSignature, [payment0]) ∧
    WebhookResult.httpStatus .invalidSignature = 400 :=
  C9_invalid_signature_no_mutation hmacConst stringifyConst "secret"
    { event := "charge.success", data := paystackD } "forged" 3 [payment0]
    (by decide)

/-- C10 counterexample: `abandoned` is not terminal in the code — a
later verify outcome in which the gateway reports `success` moves an
abandoned payment to `successful`. -/
theorem C10_abandoned_not_terminal_counterexample :
    paymentAbandoned.status = .abandoned ∧
    (verifyApplyOutcome "success" paystackD 6 paymentAbandoned).status =
      .successful := by
  decide

/-- C10 amended: in `verifyPayment`, every gateway transaction status
other than `success` and `failed` — including `pending`/`ongoing` —
marks the local Payment abandoned; `abandoned` is however not a
terminal state in the code, since a later outcome overwrites it. -/
theorem C10_other_status_marks_abandoned (g : String) (d : PaystackData)
    (now : Nat) (p : Payment) (h1 : g ≠ "success") (h2 : g ≠ "failed") :
    verifyApplyOutcome g d now p = p.markAbandoned ∧
    (verifyApplyOutcome g d now p).status = .abandoned := by
  unfold verifyApplyOutcome
  rw [if_neg h1, if_neg h2]
  exact ⟨rfl, rfl⟩

/-- C10 witness: the amended statement at the concrete gateway status
`pending`. -/
theorem C10_other_status_marks_abandoned_witness :
    verifyApplyOutcome "pending" paystackD 7 payment0 = payment0.markAbandoned ∧
    (verifyApplyOutcome "pending" paystackD 7 payment0).status = .abandoned :=
  C10_other_status_marks_abandoned "pending" paystackD 7 payment0
    (by decide) (by decide)

end StudentPortal
